import Mathlib

/-!
Verification of the fromagerie invoicing backend (`src/routes/invoiceRoutes.js`,
which also contains the PDF generator `generateInvoicePDF` and its HTML
synthesizer).

Shallow embedding conventions:
* JavaScript numbers are embedded as exact rationals (`ℚ`); the source performs
  no rounding, and the spec treats the arithmetic as exact.
* A possibly-absent (`undefined`) or non-numeric (`NaN`) numeric field is an
  `Option ℚ` (`none` = absent/NaN).  The JS idiom `x || d` for numbers is
  `jsOr`: it yields the default both for absent and for zero values, because
  `0` and `NaN` are falsy in JS.
* JS strings are Lean `String`s; the handful of string primitives the source
  uses (`split`, `parseInt`, `padStart`, `includes`, `toString`) are embedded
  as structurally recursive functions on `List Char` so that they evaluate by
  `decide`/`rfl`.
* The Mongoose `Invoice` model (`../models/Invoice.js`) is not part of `src/`;
  the store is therefore modelled from the spec's persistence interface (§6):
  a list of records kept newest-first, `findById`, `findLatestByCreatedDesc`
  (= `head?`), `insert` (= cons), and `updateById` with `$set`-patch semantics.
-/

/-! ## Monetary calculator (`calculateInvoiceTotals`, invoiceRoutes.js lines 8–22) -/

/-- One line item of an invoice (spec §3).  Only `totalPrice` is read by the
calculator; the other fields are display-only. -/
structure Item where
  designation : String
  quantity : Option ℚ
  unitPrice : Option ℚ
  totalPrice : Option ℚ
deriving DecidableEq

/-- The request body consumed by the create/update routes (`req.body`): the
fields the router actually reads.  `invoiceNumber` is included because the
routes spread the whole body into the stored record. -/
structure InvoiceData where
  items : List Item
  timbre : Option ℚ
  totalRemise : Option ℚ
  invoiceNumber : Option String
deriving DecidableEq

/-- The record of derived monetary fields returned by the calculator. -/
structure Totals where
  totalHT : ℚ
  totalTVA : ℚ
  timbre : ℚ
  totalRemise : ℚ
  totalTTC : ℚ
deriving DecidableEq

/-- The JS idiom `x || d` on a numeric field: `undefined`/`NaN` (here `none`)
and `0` are falsy, every other number is returned unchanged. -/
def jsOr (v : Option ℚ) (d : ℚ) : ℚ :=
  match v with
  | none => d
  | some x => if x = 0 then d else x

/-- Embedding of `calculateInvoiceTotals` (invoiceRoutes.js lines 8–22):
`totalHT` is `items.reduce((sum, item) => sum + (item.totalPrice || 0), 0)`,
`totalTVA = totalHT * 0.19`, `timbre = invoiceData.timbre || 0.1`,
`totalRemise = invoiceData.totalRemise || 0`,
`totalTTC = totalHT + totalTVA + timbre - totalRemise`. -/
def calculateInvoiceTotals (invoiceData : InvoiceData) : Totals :=
  let totalHT := invoiceData.items.foldl (fun sum item => sum + jsOr item.totalPrice 0) 0
  let totalTVA := totalHT * (19 / 100)
  let timbre := jsOr invoiceData.timbre (1 / 10)
  let totalRemise := jsOr invoiceData.totalRemise 0
  { totalHT := totalHT
    totalTVA := totalTVA
    timbre := timbre
    totalRemise := totalRemise
    totalTTC := totalHT + totalTVA + timbre - totalRemise }

/-! ## JS string primitives used by the sequence-number generator -/

/-- JS `String.prototype.split` with a non-empty separator, on char lists,
driven by a fuel argument equal to the length of the string (each step
consumes at least one character, so the fuel never runs out on the inputs
`jsSplit` supplies). -/
def jsSplitAux (sep : List Char) : Nat → List Char → List Char → List (List Char)
  | _, [], acc => [acc.reverse]
  | 0, s, acc => [acc.reverse ++ s]
  | fuel + 1, c :: rest, acc =>
    if sep.isPrefixOf (c :: rest) then
      acc.reverse :: jsSplitAux sep fuel ((c :: rest).drop sep.length) []
    else
      jsSplitAux sep fuel rest (c :: acc)

/-- JS `s.split(sep)` for a non-empty separator `sep`. -/
def jsSplit (sep s : List Char) : List (List Char) :=
  jsSplitAux sep s.length s []

/-- The separator `'BCC'` used by the invoice-number generator. -/
def bccL : List Char := ['B', 'C', 'C']

/-- The whitespace characters skipped by JS `parseInt`. -/
def isJsSpace (c : Char) : Bool :=
  c = ' ' || c = '\t' || c = '\n' || c = '\r' || c = '\x0b' || c = '\x0c'

/-- Longest prefix of decimal digits. -/
def takeDigits : List Char → List Char
  | [] => []
  | c :: rest => if c.isDigit then c :: takeDigits rest else []

/-- Decimal value of a digit string. -/
def digitsVal (l : List Char) : Nat :=
  l.foldl (fun a c => 10 * a + (c.toNat - 48)) 0

/-- Hexadecimal digit test (for `parseInt`'s automatic `0x` radix). -/
def isHexDigitChar (c : Char) : Bool :=
  c.isDigit || ('a' ≤ c && c ≤ 'f') || ('A' ≤ c && c ≤ 'F')

/-- Longest prefix of hexadecimal digits. -/
def takeHexDigits : List Char → List Char
  | [] => []
  | c :: rest => if isHexDigitChar c then c :: takeHexDigits rest else []

/-- Numeric value of one hexadecimal digit. -/
def hexDigitVal (c : Char) : Nat :=
  if c.isDigit then c.toNat - 48
  else if 'a' ≤ c && c ≤ 'f' then c.toNat - 87
  else c.toNat - 55

/-- Hexadecimal value of a hex-digit string. -/
def hexVal (l : List Char) : Nat :=
  l.foldl (fun a c => 16 * a + hexDigitVal c) 0

/-- Decimal branch of `parseInt`: value of the longest digit prefix, `NaN`
(`none`) when there is none. -/
def decVal (l : List Char) : Option Nat :=
  let d := takeDigits l
  if d = [] then none else some (digitsVal d)

/-- Unsigned branch of JS `parseInt` (radix unspecified): a literal `0x`/`0X`
head switches to hexadecimal, otherwise the longest decimal-digit prefix is
taken; no digits means `NaN`. -/
def parseUnsigned (l : List Char) : Option Nat :=
  match l with
  | c :: x :: rest =>
    if c = '0' ∧ (x = 'x' ∨ x = 'X') then
      let d := takeHexDigits rest
      if d = [] then none else some (hexVal d)
    else decVal (c :: x :: rest)
  | _ => decVal l

/-- JS `parseInt` after whitespace stripping: an optional sign followed by the
unsigned parse. -/
def parseIntCore (l : List Char) : Option Int :=
  match l with
  | [] => none
  | c :: rest =>
    if c = '+' then (parseUnsigned rest).map (fun n => (n : Int))
    else if c = '-' then (parseUnsigned rest).map (fun n => -(n : Int))
    else (parseUnsigned (c :: rest)).map (fun n => (n : Int))

/-- JS `parseInt(x)` where `x` may be `undefined` (`parseInt(undefined)` is
`NaN`, embedded as `none`). -/
def jsParseIntL (x : Option (List Char)) : Option Int :=
  match x with
  | none => none
  | some s => parseIntCore (s.dropWhile isJsSpace)

/-- Decimal digits of `n`, most significant first, via a fuel argument
(`n + 1` is always enough fuel since a number has at most `n + 1` digits). -/
def natReprAux : Nat → Nat → List Char
  | 0, _ => []
  | fuel + 1, n =>
    if n < 10 then [Char.ofNat (48 + n)]
    else natReprAux fuel (n / 10) ++ [Char.ofNat (48 + n % 10)]

/-- JS `Number.prototype.toString` for a non-negative integer. -/
def natRepr (n : Nat) : List Char := natReprAux (n + 1) n

/-- JS `Number.prototype.toString` for an integer. -/
def intRepr (n : Int) : List Char :=
  if n < 0 then '-' :: natRepr n.natAbs else natRepr n.toNat

/-- JS number-to-string for the template literal, where the number may be
`NaN`. -/
def jsNumRepr (n : Option Int) : List Char :=
  match n with
  | none => ['N', 'a', 'N']
  | some k => intRepr k

/-- JS `str.padStart(n, c)`. -/
def padStart (n : Nat) (c : Char) (l : List Char) : List Char :=
  List.replicate (n - l.length) c ++ l

/-! ## Sequence-number generator (`router.post('/')`, lines 46–53) -/

/-- The value of `nextNumber` in the create route: `1` when the store is
empty, otherwise `parseInt(lastInvoice.invoiceNumber.split('BCC')[1]) + 1`
(where `NaN + 1 = NaN`). -/
def nextNumberOpt (lastNumber : Option String) : Option Int :=
  match lastNumber with
  | none => some 1
  | some s => (jsParseIntL ((jsSplit bccL s.data).get? 1)).map (fun n => n + 1)

/-- The assigned invoice number:
`` `BCC${nextNumber.toString().padStart(3, '0')}` ``. -/
def nextInvoiceNumber (lastNumber : Option String) : String :=
  String.mk ('B' :: 'C' :: 'C' :: padStart 3 '0' (jsNumRepr (nextNumberOpt lastNumber)))

/-! ## Invoice store (modelled from the spec) and the CRUD routes -/

/-- Modelled from the spec: the stored invoice record.  The Mongoose model
`../models/Invoice.js` is not part of `src/`; fields follow spec §3 (identity,
number, line items, derived monetary fields). -/
structure Invoice where
  id : String
  invoiceNumber : String
  items : List Item
  totalHT : ℚ
  totalTVA : ℚ
  timbre : ℚ
  totalRemise : ℚ
  totalTTC : ℚ
deriving DecidableEq

/-- Modelled from the spec: `findById(id)` of the persistence interface
(spec §6) over a store held as a list of records. -/
def findById (store : List Invoice) (id : String) : Option Invoice :=
  store.find? (fun inv => inv.id == id)

/-- The `$set`-patch applied by `router.put('/:id')` (lines 69–85):
`{...req.body, ...calculatedTotals}` — body fields overwrite the stored ones,
and the recomputed totals overwrite any totals in the body.  Patch semantics
(set the supplied fields, keep the rest) are modelled from the spec's
`updateById(id, patch)` (§6). -/
def applyUpdate (body : InvoiceData) (inv : Invoice) : Invoice :=
  let t := calculateInvoiceTotals body
  { inv with
    invoiceNumber :=
      match body.invoiceNumber with
      | none => inv.invoiceNumber
      | some n => n
    items := body.items
    totalHT := t.totalHT
    totalTVA := t.totalTVA
    timbre := t.timbre
    totalRemise := t.totalRemise
    totalTTC := t.totalTTC }

/-- Modelled from the spec: `findByIdAndUpdate` — look the record up, apply
the patch, return the new store and (per `{ new: true }`) the updated
record. -/
def findByIdAndUpdate (store : List Invoice) (id : String) (body : InvoiceData) :
    List Invoice × Option Invoice :=
  match findById store id with
  | none => (store, none)
  | some inv =>
    let updated := applyUpdate body inv
    (store.map (fun i => if i.id == id then updated else i), some updated)

/-- Embedding of `router.put('/:id')` (lines 69–85): recompute totals from the
body, patch the record, answer 404 when the id is unknown and 200 with the
updated record otherwise. -/
def putInvoice (store : List Invoice) (id : String) (body : InvoiceData) :
    List Invoice × Nat × Option Invoice :=
  match findByIdAndUpdate store id body with
  | (store', none) => (store', 404, none)
  | (store', some inv) => (store', 200, some inv)

/-- Embedding of `router.post('/')` (lines 45–66).  The store list is kept
newest-first, so `store.head?` is `Invoice.findOne().sort({ createdAt: -1 })`
(spec §6 `findLatestByCreatedDesc`) and insertion is `cons` (the saved record
becomes the most recent).  The route builds
`{...req.body, invoiceNumber, ...calculatedTotals}` — the generated number and
the computed totals overwrite any body fields — and answers 201 with the saved
record. -/
def postInvoice (store : List Invoice) (newId : String) (body : InvoiceData) :
    List Invoice × Nat × Invoice :=
  let lastNumber := store.head?.map (fun inv => inv.invoiceNumber)
  let invoiceNumber := nextInvoiceNumber lastNumber
  let t := calculateInvoiceTotals body
  let inv : Invoice :=
    { id := newId
      invoiceNumber := invoiceNumber
      items := body.items
      totalHT := t.totalHT
      totalTVA := t.totalTVA
      timbre := t.timbre
      totalRemise := t.totalRemise
      totalTTC := t.totalTTC }
  (inv :: store, 201, inv)

/-! ## Document renderer (`generateInvoicePDF`, pdfGenerator.js) -/

/-- The behaviour of the external collaborators of one render: whether the
browser launch, the 30-second content load, and the `page.pdf()` export
succeed, and with which error message or byte buffer they settle. -/
structure RenderEnv where
  launch : Except String Unit
  content : Except String Unit
  pdfExport : Except String (List Nat)

/-- What one call of `generateInvoicePDF` did: whether a browser instance was
acquired (`puppeteer.launch` succeeded), whether it was released
(`browser.close()` in the `finally` block ran on a non-null browser), and the
returned buffer or the wrapped error. -/
structure RenderTrace where
  acquired : Bool
  released : Bool
  result : Except String (List Nat)

/-- The message head the renderer's `catch` block puts in front of the
underlying cause. -/
def renderErrHead : String := "Erreur lors de la génération du PDF: "

/-- Embedding of `generateInvoicePDF` (pdfGenerator.js lines 246–302): launch
the browser (`browser` stays `null` on launch failure), load the content,
export the PDF; any failure is rethrown wrapped in `renderErrHead`; the
`finally` block closes the browser whenever it is non-null.  Each call owns a
fresh instance — the function takes no browser state in or out. -/
def generateInvoicePDF (env : RenderEnv) : RenderTrace :=
  match env.launch with
  | .error e => { acquired := false, released := false, result := .error (renderErrHead ++ e) }
  | .ok _ =>
    match env.content with
    | .error e => { acquired := true, released := true, result := .error (renderErrHead ++ e) }
    | .ok _ =>
      match env.pdfExport with
      | .error e => { acquired := true, released := true, result := .error (renderErrHead ++ e) }
      | .ok pdf => { acquired := true, released := true, result := .ok pdf }

/-! ## PDF delivery endpoint (`router.get('/:id/pdf')`, lines 97–235) -/

/-- JS `String.prototype.includes` / the generic subsequence-of-consecutive-
elements test used both for error-text matching and for the `%%EOF` scan. -/
def jsIncludes {α : Type} [DecidableEq α] (sep s : List α) : Bool :=
  match s with
  | [] => sep.isEmpty
  | _ :: rest => sep.isPrefixOf s || jsIncludes sep rest

/-- The 24-hex-character id format `/^[0-9a-fA-F]{24}$/` of line 101. -/
def isHex24 (s : String) : Bool :=
  s.data.length == 24 && s.data.all isHexDigitChar

/-- First four bytes of a well-formed PDF, `'%PDF'`. -/
def pdfMagic : List Nat := [37, 80, 68, 70]

/-- The trailing marker `'%%EOF'`. -/
def eofMarker : List Nat := [37, 37, 69, 79, 70]

/-- Message thrown for an empty buffer (line 143). -/
def msgVide : String := "Le PDF généré est vide"

/-- Message thrown for a buffer under 1000 bytes (line 147). -/
def msgCorrompu : String := "Le PDF généré semble corrompu (trop petit)"

/-- Message thrown for a buffer whose head is not `'%PDF'` (line 154). -/
def msgInvalidPdf : String := "Le fichier généré n'est pas un PDF valide"

/-- Embedding of the buffer checks of lines 142–161: empty and under-1000-byte
buffers and buffers not starting with `'%PDF'` throw; otherwise the buffer is
accepted and the returned flag records whether the missing-`'%%EOF'` warning
was logged (`subarray(-6)` not containing the marker). -/
def verifyPdfBuffer (buf : List Nat) : Except String Bool :=
  if buf.length = 0 then .error msgVide
  else if buf.length < 1000 then .error msgCorrompu
  else if buf.take 4 = pdfMagic then
    .ok (!jsIncludes eofMarker (buf.drop (buf.length - 6)))
  else .error msgInvalidPdf

/-- The structured JSON error body of the `catch` block: HTTP status, stable
`code`, user-facing `message`, and whether the `debug` detail (raw error and
stack) was spread into the body. -/
structure PdfErrorResponse where
  status : Nat
  code : String
  message : String
  debug : Bool
deriving DecidableEq

/-- Embedding of the error classification of lines 186–233: substring checks
against `error.message`, first match wins, in source order; the `debug` object
is included exactly when `NODE_ENV === 'development'`. -/
def classifyPdfError (errMsg : String) (dev : Bool) : PdfErrorResponse :=
  let m := errMsg.data
  if jsIncludes "timeout".data m then
    ⟨504, "PDF_TIMEOUT", "La génération du PDF prend trop de temps. Veuillez réessayer.", dev⟩
  else if jsIncludes "memory".data m || jsIncludes "Memory".data m then
    ⟨507, "INSUFFICIENT_MEMORY", "Mémoire insuffisante pour générer le PDF. Veuillez réessayer plus tard.", dev⟩
  else if jsIncludes "browser".data m || jsIncludes "puppeteer".data m then
    ⟨503, "PDF_SERVICE_UNAVAILABLE", "Service de génération PDF temporairement indisponible.", dev⟩
  else if jsIncludes "not found".data m then
    ⟨404, "INVOICE_NOT_FOUND", "Facture introuvable", dev⟩
  else if jsIncludes "vide".data m || jsIncludes "corrompu".data m then
    ⟨422, "PDF_VALIDATION_ERROR", errMsg, dev⟩
  else
    ⟨500, "PDF_GENERATION_ERROR", "Erreur lors de la génération du PDF", dev⟩

/-- The overall deadline of the `Promise.race` (line 123). -/
def pdfTimeoutMs : Nat := 120000

/-- The rejection message of the timeout promise (line 128). -/
def pdfTimeoutMessage : String :=
  "PDF generation timeout - Le serveur met trop de temps à générer le PDF"

/-- Embedding of `Promise.race([generateInvoicePDF(...), timeoutPromise])` (lines 133–136):
whichever settles first wins; `timeoutFirst` says the timer fired before the
render settled. -/
def racePdf (timeoutFirst : Bool) (render : Except String (List Nat)) :
    Except String (List Nat) :=
  if timeoutFirst then .error pdfTimeoutMessage else render

/-- The outcome of one request to `GET /:id/pdf`: either the buffer was sent
(with the headers of lines 166–177, and `eofWarning` recording the
missing-`%%EOF` log), or a classified JSON error was answered. -/
inductive PdfOutcome where
  | sent (buffer : List Nat) (eofWarning : Bool)
  | failed (resp : PdfErrorResponse)
deriving DecidableEq

/-- The message of the early 400 response (line 103). -/
def msgBadId : String := "Format d'ID de facture invalide"

/-- Embedding of `router.get('/:id/pdf')` (lines 97–235): reject a falsy or
non-24-hex id with 400 before any store access, answer 404 when the id is
unknown, then race the renderer against the 120-second timer, verify the
buffer, and either send it or answer the classified error.  The early 400/404
responses never carry a `debug` object. -/
def pdfEndpoint (id : String) (store : List Invoice) (env : RenderEnv)
    (timeoutFirst : Bool) (dev : Bool) : PdfOutcome :=
  if id = "" ∨ isHex24 id = false then
    .failed ⟨400, "INVALID_ID_FORMAT", msgBadId, false⟩
  else
    match findById store id with
    | none => .failed ⟨404, "INVOICE_NOT_FOUND", "Facture introuvable", false⟩
    | some _ =>
      match racePdf timeoutFirst (generateInvoicePDF env).result with
      | .error msg => .failed (classifyPdfError msg dev)
      | .ok buf =>
        match verifyPdfBuffer buf with
        | .error msg => .failed (classifyPdfError msg dev)
        | .ok warn => .sent buf warn

/-- Decidable equality for `Except`, needed to evaluate concrete render and
verification results. -/
def exceptDecEq {ε α : Type} [DecidableEq ε] [DecidableEq α] :
    (a b : Except ε α) → Decidable (a = b)
  | .error x, .error y =>
    if h : x = y then .isTrue (by rw [h]) else .isFalse (fun hh => by cases hh; exact h rfl)
  | .error _, .ok _ => .isFalse (fun hh => by cases hh)
  | .ok _, .error _ => .isFalse (fun hh => by cases hh)
  | .ok x, .ok y =>
    if h : x = y then .isTrue (by rw [h]) else .isFalse (fun hh => by cases hh; exact h rfl)

instance {ε α : Type} [DecidableEq ε] [DecidableEq α] : DecidableEq (Except ε α) :=
  exceptDecEq

/-! ## Concrete fixtures used by the instance theorems below -/

/-- A stored invoice with a well-formed 24-hex id. -/
def inv0 : Invoice := ⟨"aaaaaaaaaaaaaaaaaaaaaaaa", "BCC001", [], 0, 0, 0, 0, 0⟩

/-- A render environment in which everything succeeds and produces `buf`. -/
def okEnv (buf : List Nat) : RenderEnv := ⟨.ok (), .ok (), .ok buf⟩

/-- A 1000-byte buffer with a correct header and no `%%EOF` marker. -/
def noEofBuf : List Nat := pdfMagic ++ List.replicate 996 48

/-- A 1000-byte all-zero buffer: long enough, but the header is wrong. -/
def zeroBuf : List Nat := List.replicate 1000 0

/-- A two-item body: one priced item and one with every numeric field absent. -/
def sampleData : InvoiceData :=
  ⟨[⟨"gouda", some 2, some (5 / 2), some 5⟩, ⟨"ricotta", none, none, none⟩], none, none, none⟩

/-- A body that smuggles an `invoiceNumber` field into the update payload. -/
def bodyEvil : InvoiceData := ⟨[], none, none, some "BCC777"⟩

/-- A stored invoice whose number does not follow the `BCC` format. -/
def invNaN : Invoice := ⟨"dddddddddddddddddddddddd", "FACTURE1", [], 0, 0, 0, 0, 0⟩

/-- A body with no items and no optional fields. -/
def emptyBody : InvoiceData := ⟨[], none, none, none⟩

/-! ## Lemmas -/

/-- With default `0`, the JS `||` on a numeric field is `Option.getD 0`. -/
theorem jsOr_zero (v : Option ℚ) : jsOr v 0 = v.getD 0 := by
  cases v with
  | none => rfl
  | some x =>
    by_cases h : x = 0
    · simp [jsOr, h]
    · simp [jsOr, h]

/-- The `reduce` of the calculator is the sum of the per-item contributions. -/
theorem foldl_totalPrice (l : List Item) (a : ℚ) :
    List.foldl (fun sum item => sum + jsOr item.totalPrice 0) a l
      = a + (l.map (fun item => item.totalPrice.getD 0)).sum := by
  induction l generalizing a with
  | nil => simp
  | cons x xs ih =>
    rw [List.foldl_cons, ih]
    simp only [List.map_cons, List.sum_cons, jsOr_zero]
    ring

/-- A decimal digit is not `'B'`. -/
theorem digit_ne_B {c : Char} (h : c.isDigit = true) : c ≠ 'B' := by
  intro hc
  rw [hc] at h
  exact absurd h (by decide)

/-- The separator `'BCC'` is not a prefix of a string whose head is not `'B'`. -/
theorem bcc_not_prefixOf_cons {c : Char} (rest : List Char) (h : c ≠ 'B') :
    bccL.isPrefixOf (c :: rest) = false := by
  simp [bccL, List.isPrefixOf]
  intro hc
  exact absurd hc.symm h

/-- A `'BCC'`-free tail is never split: the whole of it lands in the final
chunk. -/
theorem jsSplitAux_bcc_noB (s : List Char) :
    ∀ (fuel : Nat) (acc : List Char), s.length ≤ fuel → 'B' ∉ s →
      jsSplitAux bccL fuel s acc = [acc.reverse ++ s] := by
  induction s with
  | nil => intro fuel acc _ _; cases fuel <;> simp [jsSplitAux]
  | cons c rest ih =>
    intro fuel acc hfuel hB
    cases fuel with
    | zero => simp at hfuel
    | succ fuel =>
      have hc : c ≠ 'B' := fun hc => hB (hc ▸ List.mem_cons_self c rest)
      have hrest : 'B' ∉ rest := fun hm => hB (List.mem_cons_of_mem c hm)
      rw [jsSplitAux, bcc_not_prefixOf_cons rest hc]
      simp only [Bool.false_eq_true, if_false]
      rw [ih fuel (c :: acc) (by simp at hfuel; omega) hrest]
      simp

/-- Splitting `'BCC' ++ s` on `'BCC'` for a `'BCC'`-free `s` gives exactly the
two chunks `""` and `s`. -/
theorem jsSplit_bcc (s : List Char) (hB : 'B' ∉ s) :
    jsSplit bccL ('B' :: 'C' :: 'C' :: s) = [[], s] := by
  show jsSplitAux bccL (s.length + 3) ('B' :: 'C' :: 'C' :: s) [] = [[], s]
  rw [jsSplitAux]
  rw [if_pos (by simp [bccL, List.isPrefixOf])]
  show [] :: jsSplitAux bccL (s.length + 2) s [] = [[], s]
  rw [jsSplitAux_bcc_noB s (s.length + 2) [] (by omega) hB]
  simp

/-- A decimal digit is not a `parseInt` whitespace character. -/
theorem isJsSpace_of_digit {c : Char} (h : c.isDigit = true) : isJsSpace c = false := by
  by_contra hs
  have hs' : isJsSpace c = true := by
    cases hh : isJsSpace c with
    | false => exact absurd hh hs
    | true => rfl
  simp only [isJsSpace, Bool.or_eq_true, decide_eq_true_eq] at hs'
  rcases hs' with ((((h1 | h1) | h1) | h1) | h1) | h1 <;>
    (rw [h1] at h; exact absurd h (by decide))

/-- On an all-digit string, `takeDigits` keeps the whole string. -/
theorem takeDigits_all (s : List Char) (h : ∀ c ∈ s, c.isDigit = true) :
    takeDigits s = s := by
  induction s with
  | nil => rfl
  | cons c rest ih =>
    rw [takeDigits]
    rw [if_pos (h c (List.mem_cons_self c rest))]
    rw [ih (fun d hd => h d (List.mem_cons_of_mem c hd))]

/-- The decimal branch of `parseInt` evaluates an all-digit string. -/
theorem decVal_digits (s : List Char) (hne : s ≠ []) (h : ∀ c ∈ s, c.isDigit = true) :
    decVal s = some (digitsVal s) := by
  rw [decVal, takeDigits_all s h]
  simp [hne]

/-- The unsigned branch of `parseInt` evaluates an all-digit string (the `0x`
radix switch cannot fire because the second character is a digit). -/
theorem parseUnsigned_digits (s : List Char) (hne : s ≠ []) (h : ∀ c ∈ s, c.isDigit = true) :
    parseUnsigned s = some (digitsVal s) := by
  match s with
  | [] => exact absurd rfl hne
  | [c] => exact decVal_digits [c] hne h
  | c :: x :: rest =>
    have hx : x.isDigit = true := h x (by simp)
    rw [parseUnsigned]
    rw [if_neg ?hcond]
    case hcond =>
      rintro ⟨-, hx2 | hx2⟩ <;> (rw [hx2] at hx; exact absurd hx (by decide))
    exact decVal_digits (c :: x :: rest) hne h

/-- On a non-empty all-digit string, `parseInt` yields its decimal value. -/
theorem jsParseIntL_digits (s : List Char) (hne : s ≠ []) (h : ∀ c ∈ s, c.isDigit = true) :
    jsParseIntL (some s) = some (digitsVal s : Int) := by
  match s with
  | [] => exact absurd rfl hne
  | c :: rest =>
    have hc : c.isDigit = true := h c (List.mem_cons_self c rest)
    rw [jsParseIntL]
    rw [List.dropWhile_cons_of_neg (by simp [isJsSpace_of_digit hc])]
    rw [parseIntCore]
    rw [if_neg (fun hcp => by rw [hcp] at hc; exact absurd hc (by decide))]
    rw [if_neg (fun hcm => by rw [hcm] at hc; exact absurd hc (by decide))]
    rw [parseUnsigned_digits (c :: rest) hne h]
    rfl

/-- Through `intRepr`, the successor of a natural number prints as a natural. -/
theorem intRepr_natCast_succ (v : Nat) : intRepr ((v : Int) + 1) = natRepr (v + 1) := by
  have ht : ((v : Int) + 1).toNat = v + 1 := by omega
  rw [intRepr, if_neg (by omega), ht]

/-- Replacing the found record in place is seen by a subsequent fetch: if
`findById` finds `inv` and `v` carries the same id, then after mapping the
replacement over the store, `findById` returns `v`. -/
theorem findById_set (store : List Invoice) (id : String) (inv v : Invoice)
    (hfind : findById store id = some inv) (hv : v.id = inv.id) :
    findById (store.map (fun i => if i.id == id then v else i)) id = some v := by
  induction store with
  | nil => simp [findById] at hfind
  | cons a l ih =>
    cases ha : (a.id == id) with
    | true =>
      have hai : a = inv := by
        simp only [findById, List.find?, ha, Option.some.injEq] at hfind
        exact hfind
      have hvid : (v.id == id) = true := by
        rw [hv, ← hai]
        exact ha
      simp [findById, List.find?, List.map_cons, ha, hvid]
    | false =>
      have hfind' : findById l id = some inv := by
        simp only [findById, List.find?, ha] at hfind
        exact hfind
      have hrec := ih hfind'
      simp only [findById, List.map_cons, List.find?, ha, Bool.false_eq_true, if_false] at hrec ⊢
      exact hrec

/-! ## C1: the monetary calculator -/

/-- C1.  For every item list and optional `timbre`/`totalRemise` inputs,
`calculateInvoiceTotals` returns `totalHT` equal to the sum of the items'
`totalPrice` (missing contributing 0), `totalTVA = totalHT * 0.19` exactly,
`timbre = 0.1` when not supplied, `totalRemise = 0` when not supplied, and
`totalTTC = totalHT + totalTVA + timbre - totalRemise`; the function is a
total (pure, never-failing) function. -/
theorem calculateInvoiceTotals_spec (d : InvoiceData) :
    (calculateInvoiceTotals d).totalHT
        = (d.items.map (fun item => item.totalPrice.getD 0)).sum
    ∧ (calculateInvoiceTotals d).totalTVA
        = (calculateInvoiceTotals d).totalHT * (19 / 100)
    ∧ (d.timbre = none → (calculateInvoiceTotals d).timbre = 1 / 10)
    ∧ (d.totalRemise = none → (calculateInvoiceTotals d).totalRemise = 0)
    ∧ (calculateInvoiceTotals d).totalTTC
        = (calculateInvoiceTotals d).totalHT + (calculateInvoiceTotals d).totalTVA
          + (calculateInvoiceTotals d).timbre - (calculateInvoiceTotals d).totalRemise := by
  refine ⟨?_, rfl, ?_, ?_, rfl⟩
  · show List.foldl (fun sum item => sum + jsOr item.totalPrice 0) 0 d.items = _
    rw [foldl_totalPrice]
    ring
  · intro h
    show jsOr d.timbre (1 / 10) = 1 / 10
    rw [h]
    rfl
  · intro h
    show jsOr d.totalRemise 0 = 0
    rw [h]
    rfl

/-- C1 witness: the defaults fire on a concrete body, and its `totalHT` is the
plain sum of the supplied item totals. -/
theorem calculateInvoiceTotals_spec_instance :
    (calculateInvoiceTotals sampleData).timbre = 1 / 10
    ∧ (calculateInvoiceTotals sampleData).totalRemise = 0
    ∧ (calculateInvoiceTotals sampleData).totalHT
        = (sampleData.items.map (fun item => item.totalPrice.getD 0)).sum :=
  ⟨(calculateInvoiceTotals_spec sampleData).2.2.1 rfl,
   (calculateInvoiceTotals_spec sampleData).2.2.2.1 rfl,
   (calculateInvoiceTotals_spec sampleData).1⟩

/-! ## C2: the sequence-number generator -/

/-- C2.  On creation over an empty store the assigned number is `BCC001`; when
the most recent invoice's number is `'BCC'` followed by a non-empty digit
string of value `N`, the assigned number is `'BCC'` followed by `N + 1`
zero-padded to at least three digits; concretely, `BCC003 ↦ BCC004` and the
padding grows past three digits (`BCC999 ↦ BCC1000`). -/
theorem invoiceNumbering_spec :
    (∀ (newId : String) (body : InvoiceData),
        (postInvoice [] newId body).2.2.invoiceNumber = "BCC001")
    ∧ (∀ (store : List Invoice) (last : Invoice) (newId : String) (body : InvoiceData)
          (s : List Char),
        store.head? = some last →
        last.invoiceNumber = String.mk ('B' :: 'C' :: 'C' :: s) →
        s ≠ [] → (∀ c ∈ s, c.isDigit = true) →
        (postInvoice store newId body).2.2.invoiceNumber
          = String.mk ('B' :: 'C' :: 'C' :: padStart 3 '0' (natRepr (digitsVal s + 1))))
    ∧ nextInvoiceNumber (some "BCC003") = "BCC004"
    ∧ nextInvoiceNumber (some "BCC999") = "BCC1000" := by
  refine ⟨?_, ?_, by decide, by decide⟩
  · intro newId body
    show nextInvoiceNumber none = "BCC001"
    decide
  intro store last newId body s hhead hnum hne hdig
  show nextInvoiceNumber (store.head?.map (fun inv => inv.invoiceNumber)) = _
  rw [hhead]
  show nextInvoiceNumber (some last.invoiceNumber) = _
  rw [hnum]
  show String.mk ('B' :: 'C' :: 'C' ::
    padStart 3 '0' (jsNumRepr ((jsParseIntL
      ((jsSplit bccL ('B' :: 'C' :: 'C' :: s)).get? 1)).map (fun n => n + 1)))) = _
  rw [jsSplit_bcc s (fun hm => absurd rfl (digit_ne_B (hdig 'B' hm)))]
  show String.mk ('B' :: 'C' :: 'C' ::
    padStart 3 '0' (jsNumRepr ((jsParseIntL (some s)).map (fun n => n + 1)))) = _
  rw [jsParseIntL_digits s hne hdig]
  show String.mk ('B' :: 'C' :: 'C' ::
    padStart 3 '0' (intRepr ((digitsVal s : Int) + 1))) = _
  rw [intRepr_natCast_succ]

/-- C2 witness: a store whose latest invoice is numbered `BCC007` makes the
creation route assign `BCC` + pad(7 + 1) (= `BCC008`). -/
theorem invoiceNumbering_spec_instance :
    (postInvoice [⟨"bbbbbbbbbbbbbbbbbbbbbbbb", "BCC007", [], 0, 0, 0, 0, 0⟩]
        "cccccccccccccccccccccccc" ⟨[], none, none, none⟩).2.2.invoiceNumber
      = String.mk ('B' :: 'C' :: 'C' :: padStart 3 '0' (natRepr (digitsVal ['0', '0', '7'] + 1))) :=
  invoiceNumbering_spec.2.1 _ _ _ _ ['0', '0', '7'] rfl (by decide) (by decide) (by decide)

/-! ## C3: update recomputes totals; invoiceNumber survives a number-free body -/

/-- C3 (amended).  For every existing invoice and every request body that does
not itself carry an `invoiceNumber` field, the update responds 200, a fetch
after the update returns the patched record, its totals are exactly
`calculateInvoiceTotals` of the body, its items are the new items, and its
`invoiceNumber` is unchanged.  (As stated for arbitrary bodies the claim
fails: the route spreads the body into the patch, so a body carrying
`invoiceNumber` overwrites it — see the counterexample.) -/
theorem putInvoice_roundtrip (store : List Invoice) (id : String) (body : InvoiceData)
    (inv : Invoice) (hfind : findById store id = some inv)
    (hnum : body.invoiceNumber = none) :
    (putInvoice store id body).2.1 = 200
    ∧ findById (putInvoice store id body).1 id = some (applyUpdate body inv)
    ∧ (applyUpdate body inv).invoiceNumber = inv.invoiceNumber
    ∧ (applyUpdate body inv).items = body.items
    ∧ (applyUpdate body inv).totalHT = (calculateInvoiceTotals body).totalHT
    ∧ (applyUpdate body inv).totalTVA = (calculateInvoiceTotals body).totalTVA
    ∧ (applyUpdate body inv).timbre = (calculateInvoiceTotals body).timbre
    ∧ (applyUpdate body inv).totalRemise = (calculateInvoiceTotals body).totalRemise
    ∧ (applyUpdate body inv).totalTTC = (calculateInvoiceTotals body).totalTTC := by
  have hupd : findByIdAndUpdate store id body
      = (store.map (fun i => if i.id == id then applyUpdate body inv else i),
         some (applyUpdate body inv)) := by
    rw [findByIdAndUpdate, hfind]
  refine ⟨?_, ?_, ?_, rfl, rfl, rfl, rfl, rfl, rfl⟩
  · rw [putInvoice, hupd]
  · rw [putInvoice, hupd]
    exact findById_set store id inv (applyUpdate body inv) hfind rfl
  · rw [applyUpdate, hnum]

/-- C3 counterexample: with a body that carries `invoiceNumber`, the fetch
after the update returns the body's number, not the pre-update number, so the
claim's "for any request body" fails. -/
theorem putInvoice_number_overwritten :
    (findById (putInvoice [inv0] "aaaaaaaaaaaaaaaaaaaaaaaa" bodyEvil).1
        "aaaaaaaaaaaaaaaaaaaaaaaa").map Invoice.invoiceNumber = some "BCC777"
    ∧ inv0.invoiceNumber = "BCC001"
    ∧ ("BCC777" : String) ≠ "BCC001" := by
  refine ⟨?_, rfl, by decide⟩
  rfl

/-- C3 witness: the amended round trip evaluated on a concrete store and a
number-free body. -/
theorem putInvoice_roundtrip_instance :
    (putInvoice [inv0] "aaaaaaaaaaaaaaaaaaaaaaaa" sampleData).2.1 = 200
    ∧ (applyUpdate sampleData inv0).invoiceNumber = inv0.invoiceNumber :=
  ⟨(putInvoice_roundtrip [inv0] "aaaaaaaaaaaaaaaaaaaaaaaa" sampleData inv0
      (by decide) rfl).1,
   (putInvoice_roundtrip [inv0] "aaaaaaaaaaaaaaaaaaaaaaaa" sampleData inv0
      (by decide) rfl).2.2.1⟩

/-! ## C9: the timbre default fires on every falsy value -/

/-- C9.  A supplied `timbre` of `0` (and an absent one) comes back as `0.1`:
the `||` default applies to falsy values, not only to missing ones, and hence
no record written through create or update can carry a zero `timbre`. -/
theorem timbre_default_on_falsy (d body : InvoiceData) (inv : Invoice)
    (store : List Invoice) (newId : String) :
    ((d.timbre = some 0 ∨ d.timbre = none) → (calculateInvoiceTotals d).timbre = 1 / 10)
    ∧ (calculateInvoiceTotals d).timbre ≠ 0
    ∧ (applyUpdate body inv).timbre ≠ 0
    ∧ (postInvoice store newId body).2.2.timbre ≠ 0 := by
  have key : ∀ e : InvoiceData, (calculateInvoiceTotals e).timbre ≠ 0 := by
    intro e
    show jsOr e.timbre (1 / 10) ≠ 0
    cases e.timbre with
    | none =>
      show (1 / 10 : ℚ) ≠ 0
      norm_num
    | some x =>
      show (if x = 0 then (1 / 10 : ℚ) else x) ≠ 0
      by_cases hx : x = 0
      · rw [if_pos hx]; norm_num
      · rw [if_neg hx]; exact hx
  refine ⟨?_, key d, key body, key body⟩
  intro h
  show jsOr d.timbre (1 / 10) = 1 / 10
  rcases h with h | h <;> rw [h] <;> simp [jsOr]

/-- C9 witness: an explicit `timbre: 0` in the body is replaced by `0.1`. -/
theorem timbre_default_on_falsy_instance :
    (calculateInvoiceTotals ⟨[], some 0, none, none⟩).timbre = 1 / 10 :=
  (timbre_default_on_falsy ⟨[], some 0, none, none⟩ ⟨[], some 0, none, none⟩ inv0 [] "x").1
    (Or.inl rfl)

/-! ## C10: a malformed latest number degrades to `BCCNaN`, not to a failure -/

/-- C10.  When the latest invoice's number has no parseable `'BCC'`-suffix
(`parseInt` of `split('BCC')[1]` is `NaN`), creation still succeeds: the
response status is 201, the saved number is the literal `"BCCNaN"`, and the
record is persisted as the new latest invoice. -/
theorem postInvoice_nan_number (store : List Invoice) (newId : String) (body : InvoiceData)
    (last : Invoice) (hlast : store.head? = some last)
    (hparse : jsParseIntL ((jsSplit bccL last.invoiceNumber.data).get? 1) = none) :
    (postInvoice store newId body).2.1 = 201
    ∧ (postInvoice store newId body).2.2.invoiceNumber = "BCCNaN"
    ∧ (postInvoice store newId body).1.head? = some (postInvoice store newId body).2.2 := by
  refine ⟨rfl, ?_, rfl⟩
  show nextInvoiceNumber (store.head?.map (fun inv => inv.invoiceNumber)) = "BCCNaN"
  rw [hlast]
  show String.mk ('B' :: 'C' :: 'C' :: padStart 3 '0' (jsNumRepr
    ((jsParseIntL ((jsSplit bccL last.invoiceNumber.data).get? 1)).map (fun n => n + 1))))
    = "BCCNaN"
  rw [hparse]
  rfl

/-- C10 witness: a latest invoice numbered `FACTURE1` leads to a 201 creation
whose saved number is `BCCNaN`. -/
theorem postInvoice_nan_number_instance :
    (postInvoice [invNaN] "eeeeeeeeeeeeeeeeeeeeeeee" emptyBody).2.1 = 201
    ∧ (postInvoice [invNaN] "eeeeeeeeeeeeeeeeeeeeeeee" emptyBody).2.2.invoiceNumber
        = "BCCNaN" :=
  ⟨(postInvoice_nan_number [invNaN] "eeeeeeeeeeeeeeeeeeeeeeee" emptyBody invNaN
      rfl (by decide)).1,
   (postInvoice_nan_number [invNaN] "eeeeeeeeeeeeeeeeeeeeeeee" emptyBody invNaN
      rfl (by decide)).2.1⟩

/-! ## C4: error classification of the PDF endpoint -/

/-- C4.  The catch-block classification, first match wins, in exactly the
source order: `timeout` ↦ 504 `PDF_TIMEOUT`; else `memory`/`Memory` ↦ 507
`INSUFFICIENT_MEMORY`; else `browser`/`puppeteer` ↦ 503
`PDF_SERVICE_UNAVAILABLE`; else `not found` ↦ 404 `INVOICE_NOT_FOUND`; else
`vide`/`corrompu` ↦ 422 `PDF_VALIDATION_ERROR` (echoing the raw message);
otherwise 500 `PDF_GENERATION_ERROR`; and the debug detail is included exactly
in development mode. -/
theorem classifyPdfError_spec (msg : String) (dev : Bool) :
    (jsIncludes "timeout".data msg.data = true →
      (classifyPdfError msg dev).status = 504
      ∧ (classifyPdfError msg dev).code = "PDF_TIMEOUT")
    ∧ (jsIncludes "timeout".data msg.data = false →
        (jsIncludes "memory".data msg.data || jsIncludes "Memory".data msg.data) = true →
      (classifyPdfError msg dev).status = 507
      ∧ (classifyPdfError msg dev).code = "INSUFFICIENT_MEMORY")
    ∧ (jsIncludes "timeout".data msg.data = false →
        (jsIncludes "memory".data msg.data || jsIncludes "Memory".data msg.data) = false →
        (jsIncludes "browser".data msg.data || jsIncludes "puppeteer".data msg.data) = true →
      (classifyPdfError msg dev).status = 503
      ∧ (classifyPdfError msg dev).code = "PDF_SERVICE_UNAVAILABLE")
    ∧ (jsIncludes "timeout".data msg.data = false →
        (jsIncludes "memory".data msg.data || jsIncludes "Memory".data msg.data) = false →
        (jsIncludes "browser".data msg.data || jsIncludes "puppeteer".data msg.data) = false →
        jsIncludes "not found".data msg.data = true →
      (classifyPdfError msg dev).status = 404
      ∧ (classifyPdfError msg dev).code = "INVOICE_NOT_FOUND")
    ∧ (jsIncludes "timeout".data msg.data = false →
        (jsIncludes "memory".data msg.data || jsIncludes "Memory".data msg.data) = false →
        (jsIncludes "browser".data msg.data || jsIncludes "puppeteer".data msg.data) = false →
        jsIncludes "not found".data msg.data = false →
        (jsIncludes "vide".data msg.data || jsIncludes "corrompu".data msg.data) = true →
      (classifyPdfError msg dev).status = 422
      ∧ (classifyPdfError msg dev).code = "PDF_VALIDATION_ERROR"
      ∧ (classifyPdfError msg dev).message = msg)
    ∧ (jsIncludes "timeout".data msg.data = false →
        (jsIncludes "memory".data msg.data || jsIncludes "Memory".data msg.data) = false →
        (jsIncludes "browser".data msg.data || jsIncludes "puppeteer".data msg.data) = false →
        jsIncludes "not found".data msg.data = false →
        (jsIncludes "vide".data msg.data || jsIncludes "corrompu".data msg.data) = false →
      (classifyPdfError msg dev).status = 500
      ∧ (classifyPdfError msg dev).code = "PDF_GENERATION_ERROR")
    ∧ (classifyPdfError msg dev).debug = dev := by
  refine ⟨?_, ?_, ?_, ?_, ?_, ?_, ?_⟩
  · intro h1
    simp [classifyPdfError, h1]
  · intro h1 h2
    simp [classifyPdfError, h1, h2]
  · intro h1 h2 h3
    simp [classifyPdfError, h1, h2, h3]
  · intro h1 h2 h3 h4
    simp [classifyPdfError, h1, h2, h3, h4]
  · intro h1 h2 h3 h4 h5
    simp [classifyPdfError, h1, h2, h3, h4, h5]
  · intro h1 h2 h3 h4 h5
    simp [classifyPdfError, h1, h2, h3, h4, h5]
  · by_cases h1 : jsIncludes "timeout".data msg.data = true
    · simp [classifyPdfError, h1]
    · rw [Bool.not_eq_true] at h1
      by_cases h2 : (jsIncludes "memory".data msg.data || jsIncludes "Memory".data msg.data) = true
      · simp [classifyPdfError, h1, h2]
      · rw [Bool.not_eq_true] at h2
        by_cases h3 : (jsIncludes "browser".data msg.data || jsIncludes "puppeteer".data msg.data) = true
        · simp [classifyPdfError, h1, h2, h3]
        · rw [Bool.not_eq_true] at h3
          by_cases h4 : jsIncludes "not found".data msg.data = true
          · simp [classifyPdfError, h1, h2, h3, h4]
          · rw [Bool.not_eq_true] at h4
            by_cases h5 : (jsIncludes "vide".data msg.data || jsIncludes "corrompu".data msg.data) = true
            · simp [classifyPdfError, h1, h2, h3, h4, h5]
            · rw [Bool.not_eq_true] at h5
              simp [classifyPdfError, h1, h2, h3, h4, h5]

/-- C4 witness: a timeout-flavoured message classifies as 504 even in
development mode, and an unrecognized message falls through to 500. -/
theorem classifyPdfError_spec_instance :
    ((classifyPdfError "Navigation timeout of 30000 ms exceeded" true).status = 504
      ∧ (classifyPdfError "Navigation timeout of 30000 ms exceeded" true).code = "PDF_TIMEOUT")
    ∧ ((classifyPdfError "boom" false).status = 500
      ∧ (classifyPdfError "boom" false).code = "PDF_GENERATION_ERROR") :=
  ⟨(classifyPdfError_spec "Navigation timeout of 30000 ms exceeded" true).1 (by decide),
   (classifyPdfError_spec "boom" false).2.2.2.2.2.1 (by decide) (by decide) (by decide)
     (by decide) (by decide)⟩

/-! ## C8: the renderer releases its browser on every path -/

/-- C8.  One render acquires at most one engine instance and releases it
exactly when it acquired one: on the success path, on a content-load or
export failure the `finally` closes the browser, and on a launch failure no
instance exists and none is closed; when the launch succeeds an instance is
always acquired.  The function carries no engine state across calls. -/
theorem generateInvoicePDF_release_spec (env : RenderEnv) :
    (generateInvoicePDF env).released = (generateInvoicePDF env).acquired
    ∧ (generateInvoicePDF { env with launch := .ok () }).acquired = true := by
  obtain ⟨l, c, p⟩ := env
  constructor
  · cases l <;> cases c <;> cases p <;> rfl
  · cases c <;> cases p <;> rfl

/-! ## C6: the 120-second race -/

/-- C6.  The render is raced against a `pdfTimeoutMs = 120000` ms timer.  If
the timer settles first the endpoint fails with the classification of the
timeout message — status 504, code `PDF_TIMEOUT` — and if the render settles
first the race leaves its result untouched. -/
theorem pdfEndpoint_timeout_spec (id : String) (store : List Invoice) (env : RenderEnv)
    (dev : Bool) (inv : Invoice) (hid : isHex24 id = true)
    (hfind : findById store id = some inv) :
    pdfTimeoutMs = 120000
    ∧ pdfEndpoint id store env true dev = .failed (classifyPdfError pdfTimeoutMessage dev)
    ∧ (classifyPdfError pdfTimeoutMessage dev).status = 504
    ∧ (classifyPdfError pdfTimeoutMessage dev).code = "PDF_TIMEOUT"
    ∧ racePdf false (generateInvoicePDF env).result = (generateInvoicePDF env).result := by
  have hcond : ¬(id = "" ∨ isHex24 id = false) := by
    rintro (h | h)
    · rw [h] at hid
      exact absurd hid (by decide)
    · rw [h] at hid
      cases hid
  have ht : jsIncludes "timeout".data pdfTimeoutMessage.data = true := by decide
  refine ⟨rfl, ?_, ?_, ?_, rfl⟩
  · simp [pdfEndpoint, hcond, hfind, racePdf]
  · simp [classifyPdfError, ht]
  · simp [classifyPdfError, ht]

/-- C6 witness: with a found invoice and the timer settling first, the
endpoint concretely answers the 504 classification. -/
theorem pdfEndpoint_timeout_spec_instance :
    pdfEndpoint "aaaaaaaaaaaaaaaaaaaaaaaa" [inv0] (okEnv zeroBuf) true false
      = .failed (classifyPdfError pdfTimeoutMessage false)
    ∧ (classifyPdfError pdfTimeoutMessage false).status = 504
    ∧ (classifyPdfError pdfTimeoutMessage false).code = "PDF_TIMEOUT" :=
  ⟨(pdfEndpoint_timeout_spec "aaaaaaaaaaaaaaaaaaaaaaaa" [inv0] (okEnv zeroBuf) false inv0
      (by decide) (by decide)).2.1,
   (pdfEndpoint_timeout_spec "aaaaaaaaaaaaaaaaaaaaaaaa" [inv0] (okEnv zeroBuf) false inv0
      (by decide) (by decide)).2.2.1,
   (pdfEndpoint_timeout_spec "aaaaaaaaaaaaaaaaaaaaaaaa" [inv0] (okEnv zeroBuf) false inv0
      (by decide) (by decide)).2.2.2.1⟩

/-! ## C7: id validation before any store access -/

/-- C7.  A non-24-hex id is rejected with 400 `INVALID_ID_FORMAT` and the
outcome does not depend on the store at all (no store access); a well-formed
but unknown id is rejected with 404 `INVOICE_NOT_FOUND` after the lookup. -/
theorem pdfEndpoint_idValidation_spec (id : String) (store store' : List Invoice)
    (env : RenderEnv) (tf dev : Bool) :
    (isHex24 id = false →
      pdfEndpoint id store env tf dev = .failed ⟨400, "INVALID_ID_FORMAT", msgBadId, false⟩
      ∧ pdfEndpoint id store env tf dev = pdfEndpoint id store' env tf dev)
    ∧ (isHex24 id = true → findById store id = none →
      pdfEndpoint id store env tf dev
        = .failed ⟨404, "INVOICE_NOT_FOUND", "Facture introuvable", false⟩) := by
  constructor
  · intro h
    constructor
    · rw [pdfEndpoint, if_pos (Or.inr h)]
    · rw [pdfEndpoint, if_pos (Or.inr h), pdfEndpoint, if_pos (Or.inr h)]
  · intro hid hfind
    have hcond : ¬(id = "" ∨ isHex24 id = false) := by
      rintro (h | h)
      · rw [h] at hid
        exact absurd hid (by decide)
      · rw [h] at hid
        cases hid
    simp [pdfEndpoint, hcond, hfind]

/-- C7 witness: `"not-an-id"` is answered 400 with any store, and a
well-formed absent id is answered 404. -/
theorem pdfEndpoint_idValidation_instance :
    pdfEndpoint "not-an-id" [] (okEnv zeroBuf) false false
      = .failed ⟨400, "INVALID_ID_FORMAT", msgBadId, false⟩
    ∧ pdfEndpoint "not-an-id" [] (okEnv zeroBuf) false false
      = pdfEndpoint "not-an-id" [inv0] (okEnv zeroBuf) false false
    ∧ pdfEndpoint "ffffffffffffffffffffffff" [] (okEnv zeroBuf) false false
      = .failed ⟨404, "INVOICE_NOT_FOUND", "Facture introuvable", false⟩ :=
  ⟨((pdfEndpoint_idValidation_spec "not-an-id" [] [inv0] (okEnv zeroBuf) false false).1
      (by decide)).1,
   ((pdfEndpoint_idValidation_spec "not-an-id" [] [inv0] (okEnv zeroBuf) false false).1
      (by decide)).2,
   (pdfEndpoint_idValidation_spec "ffffffffffffffffffffffff" [] [] (okEnv zeroBuf) false
      false).2 (by decide) rfl⟩

/-! ## C5: buffer verification -/

/-- C5 (amended).  Verification fails for every empty buffer, every buffer
under 1000 bytes, and every buffer whose first 4 bytes are not `'%PDF'`; a
buffer of at least 1000 bytes starting with `'%PDF'` passes, a missing
`'%%EOF'` near the end is only a warning, and a passing buffer is delivered.
Empty and too-small buffers are classified as validation errors (422,
`PDF_VALIDATION_ERROR`); a wrong header, however, throws a message containing
neither `vide` nor `corrompu`, so its failure is classified as the generic
500, not as a validation error — the claim's "as a validation error" only
covers the first two checks (see the counterexample). -/
theorem verifyPdfBuffer_spec (dev : Bool) :
    (∀ buf : List Nat, buf.length = 0 → verifyPdfBuffer buf = .error msgVide)
    ∧ (∀ buf : List Nat, buf.length ≠ 0 → buf.length < 1000 →
        verifyPdfBuffer buf = .error msgCorrompu)
    ∧ (∀ buf : List Nat, buf.take 4 ≠ pdfMagic → ∃ e, verifyPdfBuffer buf = .error e)
    ∧ (∀ buf : List Nat, 1000 ≤ buf.length → buf.take 4 = pdfMagic →
        ∃ w, verifyPdfBuffer buf = .ok w)
    ∧ (classifyPdfError msgVide dev).status = 422
    ∧ (classifyPdfError msgVide dev).code = "PDF_VALIDATION_ERROR"
    ∧ (classifyPdfError msgCorrompu dev).status = 422
    ∧ (classifyPdfError msgCorrompu dev).code = "PDF_VALIDATION_ERROR"
    ∧ (∀ (id : String) (store : List Invoice) (env : RenderEnv) (buf : List Nat)
          (inv : Invoice) (w : Bool),
        isHex24 id = true → findById store id = some inv →
        env.launch = .ok () → env.content = .ok () → env.pdfExport = .ok buf →
        verifyPdfBuffer buf = .ok w →
        pdfEndpoint id store env false dev = .sent buf w) := by
  have t1 : jsIncludes "timeout".data msgVide.data = false := by decide
  have t2 : jsIncludes "memory".data msgVide.data = false := by decide
  have t3 : jsIncludes "Memory".data msgVide.data = false := by decide
  have t4 : jsIncludes "browser".data msgVide.data = false := by decide
  have t5 : jsIncludes "puppeteer".data msgVide.data = false := by decide
  have t6 : jsIncludes "not found".data msgVide.data = false := by decide
  have t7 : jsIncludes "vide".data msgVide.data = true := by decide
  have u1 : jsIncludes "timeout".data msgCorrompu.data = false := by decide
  have u2 : jsIncludes "memory".data msgCorrompu.data = false := by decide
  have u3 : jsIncludes "Memory".data msgCorrompu.data = false := by decide
  have u4 : jsIncludes "browser".data msgCorrompu.data = false := by decide
  have u5 : jsIncludes "puppeteer".data msgCorrompu.data = false := by decide
  have u6 : jsIncludes "not found".data msgCorrompu.data = false := by decide
  have u7 : jsIncludes "corrompu".data msgCorrompu.data = true := by decide
  refine ⟨?_, ?_, ?_, ?_, ?_, ?_, ?_, ?_, ?_⟩
  · intro buf h
    rw [verifyPdfBuffer, if_pos h]
  · intro buf h0 h1
    rw [verifyPdfBuffer, if_neg h0, if_pos h1]
  · intro buf h
    by_cases h0 : buf.length = 0
    · exact ⟨msgVide, by rw [verifyPdfBuffer, if_pos h0]⟩
    · by_cases h1 : buf.length < 1000
      · exact ⟨msgCorrompu, by rw [verifyPdfBuffer, if_neg h0, if_pos h1]⟩
      · exact ⟨msgInvalidPdf, by rw [verifyPdfBuffer, if_neg h0, if_neg h1, if_neg h]⟩
  · intro buf hlen hmag
    exact ⟨_, by rw [verifyPdfBuffer, if_neg (by omega), if_neg (by omega), if_pos hmag]⟩
  · simp [classifyPdfError, t1, t2, t3, t4, t5, t6, t7]
  · simp [classifyPdfError, t1, t2, t3, t4, t5, t6, t7]
  · simp [classifyPdfError, u1, u2, u3, u4, u5, u6, u7]
  · simp [classifyPdfError, u1, u2, u3, u4, u5, u6, u7]
  · intro id store env buf inv w hid hfind hl hc hp hv
    have hcond : ¬(id = "" ∨ isHex24 id = false) := by
      rintro (h | h)
      · rw [h] at hid
        exact absurd hid (by decide)
      · rw [h] at hid
        cases hid
    obtain ⟨l, c, p⟩ := env
    simp only at hl hc hp
    subst hl
    subst hc
    subst hp
    simp [pdfEndpoint, hcond, hfind, generateInvoicePDF, racePdf, hv]

set_option maxRecDepth 100000 in
/-- C5 counterexample: a 1000-byte all-zero buffer is long enough but has a
wrong header; its rejection is classified 500 `PDF_GENERATION_ERROR`, not as
the 422 validation class, so the "(as a validation error)" part of the claim
fails for header mismatches. -/
theorem verifyPdf_header_not_validation :
    verifyPdfBuffer zeroBuf = .error msgInvalidPdf
    ∧ (classifyPdfError msgInvalidPdf false).status = 500
    ∧ (classifyPdfError msgInvalidPdf false).code = "PDF_GENERATION_ERROR"
    ∧ "PDF_GENERATION_ERROR" ≠ "PDF_VALIDATION_ERROR"
    ∧ pdfEndpoint "aaaaaaaaaaaaaaaaaaaaaaaa" [inv0] (okEnv zeroBuf) false false
      = .failed ⟨500, "PDF_GENERATION_ERROR", "Erreur lors de la génération du PDF", false⟩ := by
  refine ⟨by decide, by decide, by decide, by decide, by decide⟩

set_option maxRecDepth 100000 in
/-- C5 witness: a 500-byte buffer is rejected as corrupt, and a 1000-byte
`'%PDF'` buffer with no `'%%EOF'` is delivered with the warning flag set. -/
theorem verifyPdfBuffer_spec_instance :
    verifyPdfBuffer (List.replicate 500 37) = .error msgCorrompu
    ∧ pdfEndpoint "aaaaaaaaaaaaaaaaaaaaaaaa" [inv0] (okEnv noEofBuf) false false
      = .sent noEofBuf true :=
  ⟨(verifyPdfBuffer_spec false).2.1 (List.replicate 500 37) (by decide) (by decide),
   (verifyPdfBuffer_spec false).2.2.2.2.2.2.2.2 "aaaaaaaaaaaaaaaaaaaaaaaa" [inv0]
     (okEnv noEofBuf) noEofBuf inv0 true (by decide) (by decide) rfl rfl rfl (by decide)⟩
